import Mathlib

/-!
Verification development for the NetMonitor Pro repository (`app.py`,
`backup_monitor.py`). The Python code is shallowly embedded: Python `str`
values are `List Char`, Python `float` values are `ℚ`, exceptions are
modelled by `Option` outcomes of the OS/network facilities that can raise,
and SQLite tables are lists of rows. Every definition is translated from
the source; environment-dependent readings (psutil values, command output,
socket outcomes) are parameters.
-/

namespace NetMonitor

/-- Python strings are embedded as lists of characters. -/
abbrev PyStr := List Char

/-- Coercion from a Lean string literal to the embedded string type. -/
def str (s : String) : PyStr := s.data

/-- Tests whether `pat` is a leading segment (prefix) of `s`, as lists of
characters. Used to embed Python substring and `endswith` tests. -/
def leadsWith : PyStr → PyStr → Bool
  | [], _ => true
  | _ :: _, [] => false
  | p :: ps, c :: cs => p == c && leadsWith ps cs

/-- Embeds the Python substring test `pat in s`: `pat` occurs contiguously
somewhere in `s`. -/
def isSub (pat : PyStr) : PyStr → Bool
  | [] => leadsWith pat []
  | c :: cs => leadsWith pat (c :: cs) || isSub pat cs

/-- Embeds Python `s.endswith(pat)`. -/
def trailsWith (pat s : PyStr) : Bool := leadsWith pat.reverse s.reverse

/-- Embeds Python `s.split(sep)` for a one-character separator `sep`
(used for `output.split(chr(10))` and `ip_address.split(chr(46))` in the
source). -/
def pySplitChar (sep : Char) : PyStr → List PyStr
  | [] => [[]]
  | c :: rest =>
    if c = sep then [] :: pySplitChar sep rest
    else
      match pySplitChar sep rest with
      | [] => [[c]]
      | p :: ps => (c :: p) :: ps

/-- Drops `pat` from the front of `s` when `pat` leads `s`; `none`
otherwise. Helper for the multi-character split below. -/
def dropStart? : PyStr → PyStr → Option PyStr
  | [], s => some s
  | _ :: _, [] => none
  | p :: ps, c :: cs => if p = c then dropStart? ps cs else none

/-- Fuel-driven worker for `pySplitStr`; the fuel is the length of the
input, which bounds the number of steps for a nonempty separator. -/
def pySplitStrGo (sep : PyStr) : Nat → PyStr → PyStr → List PyStr
  | 0, s, acc => [acc.reverse ++ s]
  | _ + 1, [], acc => [acc.reverse]
  | fuel + 1, c :: cs, acc =>
    match dropStart? sep (c :: cs) with
    | some rest => acc.reverse :: pySplitStrGo sep fuel rest []
    | none => pySplitStrGo sep fuel cs (c :: acc)

/-- Embeds Python `s.split(sep)` for a (nonempty) multi-character
separator: splits at each non-overlapping occurrence, left to right. -/
def pySplitStr (sep s : PyStr) : List PyStr := pySplitStrGo sep s.length s []

/-- Whitespace characters stripped by Python `float()` before parsing. -/
def isPyWs (c : Char) : Bool := c = ' ' || c = '\t' || c = '\n' || c = '\r'

/-- Strips leading and trailing whitespace. -/
def stripEnds (s : PyStr) : PyStr :=
  ((s.dropWhile isPyWs).reverse.dropWhile isPyWs).reverse

/-- Decimal digit test. -/
def isDigitCh (c : Char) : Bool := '0' ≤ c && c ≤ '9'

/-- Value of a string of decimal digits. -/
def natVal (s : PyStr) : Nat := s.foldl (fun a c => a * 10 + (c.toNat - '0'.toNat)) 0

/-- Embeds Python `float(s)` on plain decimal literals: optional
whitespace, optional sign, digits with at most one decimal point (at least
one digit overall). Returns `none` when `float` would raise `ValueError`.
Exotic accepted forms (exponents, `inf`, `nan`, underscores) do not occur
in the command outputs the source parses and are mapped to `none`. -/
def pyFloat? (s : PyStr) : Option ℚ :=
  let t := stripEnds s
  let su : ℚ × PyStr :=
    match t with
    | '-' :: r => (-1, r)
    | '+' :: r => (1, r)
    | _ => (1, t)
  match pySplitChar '.' su.2 with
  | [w] => if !w.isEmpty && w.all isDigitCh then some (su.1 * natVal w) else none
  | [w, f] =>
    if (!w.isEmpty || !f.isEmpty) && w.all isDigitCh && f.all isDigitCh then
      some (su.1 * ((natVal w : ℚ) + (natVal f : ℚ) / (10 : ℚ) ^ f.length))
    else none
  | _ => none

/-- Python `round(x)` to an integer: round half to even. -/
def pyRoundHalfEven (q : ℚ) : Int :=
  let f := ⌊q⌋
  let r := q - f
  if r < 1/2 then f else if r > 1/2 then f + 1 else if f % 2 = 0 then f else f + 1

/-- Python `round(x, 1)`: round to one decimal place, half to even. -/
def pyRound1 (q : ℚ) : ℚ := (pyRoundHalfEven (q * 10) : ℚ) / 10

/-! ### Reachability prober (`NetworkMonitor.ping_host`, app.py lines 182-262) -/

/-- Result of one probe: `(success, latency)` as returned by `ping_host`. -/
structure ProbeResult where
  success : Bool
  latencyMs : Option ℚ
deriving DecidableEq

/-- Outcome of the `urllib.request.urlopen` call of method 4: either the
request errors at the network level, or the server answers with an HTTP
status code after `elapsedMs` milliseconds. -/
inductive HttpOutcome where
  | err : HttpOutcome
  | response (status : Nat) (elapsedMs : ℚ) : HttpOutcome

/-- Environment of one `ping_host` invocation: the outcome of each
OS/network facility the chain may consult. `none` models the facility
raising an exception (or timing out).
* `pingRun`: `subprocess.run` of the ping command; `some (returncode, stdout)`.
* `tcpConnect`: the TCP connect of method 2; `some (some t)` means
  `connect_ex` returned 0 after `t` ms, `some none` means it returned a
  nonzero error code, `none` means the socket calls raised.
* `rawSocket`: the raw ICMP send attempted when `connect_ex` is nonzero;
  `some t` is a successful send with `t` ms elapsed since method 2 began.
* `dns`: `socket.gethostbyname`; `some t` is success after `t` ms.
* `http`: the HTTP GET of method 4. -/
structure PingEnv where
  pingRun : Option (Int × PyStr)
  tcpConnect : Option (Option ℚ)
  rawSocket : Option ℚ
  dns : Option ℚ
  http : HttpOutcome

/-- Embeds `urllib.request.urlopen(url, timeout=5)`: returns the elapsed
time when the request completes with a final status in 200-299. Network
errors raise `URLError`, and `HTTPErrorProcessor` raises `HTTPError` for
any final status outside 200-299 — including 4xx/5xx and the 3xx
responses the redirect handler does not follow (300, 304, 305, or a
redirect without a Location header); a followed redirect re-opens the new
URL, so `status` is the status of the final response. Raising is
modelled as `none`. -/
def urlopenOk : HttpOutcome → Option ℚ
  | .err => none
  | .response status elapsedMs =>
    if 200 ≤ status ∧ status < 300 then some elapsedMs else none

/-- The literal `"time="` searched for in the ping output. -/
def timeEq : PyStr := str "time="

/-- Embeds the body of the `try` inside the output loop of method 1: take
the text after the first `time=` of the line, cut it at the first `ms`,
and parse it as a float. An `IndexError` (no second piece) or a
`ValueError` (bad float) is caught by the bare `except` and yields
`none`. -/
def extractTimeLatency (line : PyStr) : Option ℚ :=
  match (pySplitStr timeEq line).get? 1 with
  | none => none
  | some rest => pyFloat? ((pySplitStr (str "ms") rest).headD [])

/-- Embeds the `for line in lines` loop of method 1: return the latency of
the first line containing `"time="` whose parse succeeds; fall through on
parse failure. -/
def pingParseLoop : List PyStr → Option ℚ
  | [] => none
  | l :: ls =>
    if isSub timeEq l then
      match extractTimeLatency l with
      | some v => some v
      | none => pingParseLoop ls
    else pingParseLoop ls

/-- Embeds method 1 of `ping_host` given that `subprocess.run` returned:
exit code zero yields success (with the parsed latency when the output
carries one); a nonzero exit code yields `(False, None)` immediately. -/
def method1Result (rc : Int) (output : PyStr) : ProbeResult :=
  if rc == 0 then
    if isSub timeEq output then
      match pingParseLoop (pySplitChar '\n' output) with
      | some v => ⟨true, some v⟩
      | none => ⟨true, none⟩
    else ⟨true, none⟩
  else ⟨false, none⟩

/-- Embeds methods 3 and 4 of `ping_host` (DNS lookup, then HTTP GET),
reached when methods 1 and 2 raised. Elapsed times are reported in
milliseconds and pass through `round(.., 1)`. -/
def dnsHttpFallback (e : PingEnv) : ProbeResult :=
  match e.dns with
  | some t => ⟨true, some (pyRound1 t)⟩
  | none =>
    match urlopenOk e.http with
    | some t => ⟨true, some (pyRound1 t)⟩
    | none => ⟨false, none⟩

/-- Embeds `NetworkMonitor.ping_host`: method 1 (external ping command),
then on an exception method 2 (TCP connect to port 80, with an
opportunistic raw ICMP send when the connect is cleanly refused), then
DNS lookup, then HTTP GET. The function is total: no branch raises. -/
def ping_host (e : PingEnv) : ProbeResult :=
  match e.pingRun with
  | some (rc, out) => method1Result rc out
  | none =>
    match e.tcpConnect with
    | some (some t) => ⟨true, some (pyRound1 t)⟩
    | some none =>
      match e.rawSocket with
      | some t => ⟨true, some (pyRound1 t)⟩
      | none => dnsHttpFallback e
    | none => dnsHttpFallback e

/-- Holds when the ping utility ran to completion and exited nonzero: the
clean negative answer that short-circuits the chain. -/
def pingCleanNonzero (e : PingEnv) : Bool :=
  match e.pingRun with
  | some (rc, _) => rc != 0
  | none => false

/-- Strategy 1 (external ping) succeeds: the process ran and exited 0. -/
def strat1Succeeds (e : PingEnv) : Bool :=
  match e.pingRun with
  | some (rc, _) => rc == 0
  | none => false

/-- Strategy 2 (TCP connect to port 80) succeeds. -/
def strat2Succeeds (e : PingEnv) : Bool :=
  match e.tcpConnect with
  | some (some _) => true
  | _ => false

/-- Strategy 3 (raw ICMP send) succeeds as the code runs it: it is only
attempted when the TCP connect cleanly reports a nonzero error code. -/
def strat3Succeeds (e : PingEnv) : Bool :=
  match e.tcpConnect, e.rawSocket with
  | some none, some _ => true
  | _, _ => false

/-- Strategy 4 (DNS resolution) succeeds. -/
def strat4Succeeds (e : PingEnv) : Bool := e.dns.isSome

/-- Strategy 5 (HTTP GET) succeeds: `urlopen` returns without raising. -/
def strat5Succeeds (e : PingEnv) : Bool := (urlopenOk e.http).isSome

/-- Every strategy of the chain fails. -/
def allStrategiesFail (e : PingEnv) : Bool :=
  !strat1Succeeds e && !strat2Succeeds e && !strat3Succeeds e &&
    !strat4Succeeds e && !strat5Succeeds e

/-! ### String lemmas used to reason about the ping-output parse -/

theorem pySplitChar_ne_nil (sep : Char) : ∀ s : PyStr, pySplitChar sep s ≠ []
  | [] => by simp [pySplitChar]
  | c :: cs => by
    simp only [pySplitChar]
    split
    · simp
    · split <;> simp

theorem leadsWith_append : ∀ (p b t : PyStr), leadsWith p b = true → leadsWith p (b ++ t) = true
  | [], _, _, _ => rfl
  | _ :: _, [], _, h => by simp [leadsWith] at h
  | p :: ps, c :: cs, t, h => by
    simp only [List.cons_append, leadsWith, Bool.and_eq_true] at h ⊢
    exact ⟨h.1, leadsWith_append ps cs t h.2⟩

theorem isSub_of_leadsWith : ∀ (p s : PyStr), leadsWith p s = true → isSub p s = true
  | p, [], h => by simpa [isSub] using h
  | p, c :: cs, h => by simp [isSub, h]

theorem isSub_append_right : ∀ (p b t : PyStr), isSub p b = true → isSub p (b ++ t) = true
  | p, [], t, h => by
    have hp : p = [] := by
      cases p with
      | nil => rfl
      | cons a as => simp [isSub, leadsWith] at h
    subst hp
    show isSub [] t = true
    exact isSub_of_leadsWith [] t rfl
  | p, c :: cs, t, h => by
    simp only [isSub, Bool.or_eq_true] at h
    rcases h with h | h
    · exact isSub_of_leadsWith p ((c :: cs) ++ t) (leadsWith_append p (c :: cs) t h)
    · simp only [List.cons_append, isSub, Bool.or_eq_true]
      exact Or.inr (isSub_append_right p cs t h)

theorem pySplitChar_head_pre (sep : Char) : ∀ s : PyStr, ∃ t, ((pySplitChar sep s).headD []) ++ t = s
  | [] => ⟨[], rfl⟩
  | c :: cs => by
    by_cases hc : c = sep
    · exact ⟨c :: cs, by simp [pySplitChar, hc]⟩
    · obtain ⟨t, ht⟩ := pySplitChar_head_pre sep cs
      cases hsplit : pySplitChar sep cs with
      | nil => exact absurd hsplit (pySplitChar_ne_nil sep cs)
      | cons p ps =>
        refine ⟨t, ?_⟩
        rw [hsplit] at ht
        simp only [List.headD_cons] at ht
        simp only [pySplitChar, if_neg hc, hsplit, List.headD_cons, List.cons_append]
        rw [ht]

theorem isSub_of_mem_split (sep : Char) (pat : PyStr) :
    ∀ (s l : PyStr), l ∈ pySplitChar sep s → isSub pat l = true → isSub pat s = true
  | [], l, hmem, hsub => by
    simp [pySplitChar] at hmem
    subst hmem
    exact hsub
  | c :: cs, l, hmem, hsub => by
    by_cases hc : c = sep
    · simp only [pySplitChar, if_pos hc] at hmem
      rcases List.mem_cons.mp hmem with h | h
      · subst h
        have hp : pat = [] := by
          cases pat with
          | nil => rfl
          | cons a as => simp [isSub, leadsWith] at hsub
        subst hp
        simp [isSub, leadsWith]
      · have hrec := isSub_of_mem_split sep pat cs l h hsub
        simp [isSub, hrec]
    · cases hsplit : pySplitChar sep cs with
      | nil => exact absurd hsplit (pySplitChar_ne_nil sep cs)
      | cons p ps =>
        simp only [pySplitChar, if_neg hc, hsplit] at hmem
        rcases List.mem_cons.mp hmem with h | h
        · subst h
          simp only [isSub, Bool.or_eq_true] at hsub
          obtain ⟨t, ht⟩ := pySplitChar_head_pre sep cs
          rw [hsplit] at ht
          simp only [List.headD_cons] at ht
          rcases hsub with h1 | h1
          · have h2 := leadsWith_append pat (c :: p) t h1
            rw [List.cons_append, ht] at h2
            exact isSub_of_leadsWith pat (c :: cs) h2
          · have h2 := isSub_append_right pat p t h1
            rw [ht] at h2
            simp [isSub, h2]
        · have hmem2 : l ∈ pySplitChar sep cs := by
            rw [hsplit]; exact List.mem_cons_of_mem p h
          have hrec := isSub_of_mem_split sep pat cs l hmem2 hsub
          simp [isSub, hrec]

/-- Latency a single output line contributes: lines without `"time="` (or
whose parse fails) contribute nothing. -/
def lineLatencyOf (l : PyStr) : Option ℚ :=
  if isSub timeEq l then extractTimeLatency l else none

theorem pingParseLoop_eq_findSome : ∀ ls : List PyStr,
    pingParseLoop ls = ls.findSome? lineLatencyOf
  | [] => rfl
  | l :: ls => by
    simp only [pingParseLoop, List.findSome?_cons, lineLatencyOf]
    by_cases h : isSub timeEq l
    · simp only [h, if_pos]
      cases hv : extractTimeLatency l <;> simp [hv, pingParseLoop_eq_findSome ls]
    · simp only [h, Bool.false_eq_true, if_false]
      exact pingParseLoop_eq_findSome ls

theorem method1Result_eq_false_iff (rc : Int) (out : PyStr) :
    method1Result rc out = ⟨false, none⟩ ↔ rc ≠ 0 := by
  by_cases hrc : rc = 0
  · subst hrc
    simp only [method1Result, show ((0 : Int) == 0) = true from rfl, if_true]
    constructor
    · intro hcontra
      split at hcontra
      · split at hcontra <;> simp at hcontra
      · simp at hcontra
    · intro h; exact absurd rfl h
  · have hbe : (rc == 0) = false := by simpa using hrc
    simp [method1Result, hbe, hrc]

/-- C2 (counterexample): when the ping utility runs to completion and
exits nonzero while the TCP connect strategy would succeed, `ping_host`
returns `(False, None)` even though not every strategy in its chain has
failed — refuting the claim that `(False, None)` is returned exactly when
every strategy has failed. -/
theorem claim_C2_counterexample :
    ping_host ⟨some (1, []), some (some 5), none, none, .err⟩ = ⟨false, none⟩
      ∧ allStrategiesFail ⟨some (1, []), some (some 5), none, none, .err⟩ = false := by
  constructor <;> decide

/-- C2 (amended): `ping_host` never raises (it is a total function), and
it returns `(False, None)` exactly when either the ping utility completed
with a nonzero exit code (a clean negative that short-circuits the chain)
or every strategy failed; in particular, for a target unreachable by every
strategy the result is `(False, None)`. -/
theorem claim_C2_amended (e : PingEnv) :
    ping_host e = ⟨false, none⟩
      ↔ (pingCleanNonzero e || allStrategiesFail e) = true := by
  obtain ⟨pr, tc, rs, d, h⟩ := e
  cases pr with
  | some v =>
    obtain ⟨rc, out⟩ := v
    show method1Result rc out = ⟨false, none⟩ ↔ _
    rw [method1Result_eq_false_iff]
    by_cases hrc : rc = 0 <;>
      simp [hrc, pingCleanNonzero, allStrategiesFail, strat1Succeeds]
  | none =>
    cases tc with
    | some o =>
      cases o with
      | some t =>
        simp [ping_host, pingCleanNonzero, allStrategiesFail, strat2Succeeds]
      | none =>
        cases rs with
        | some t =>
          simp [ping_host, pingCleanNonzero, allStrategiesFail, strat3Succeeds]
        | none =>
          cases d with
          | some t =>
            simp [ping_host, dnsHttpFallback, pingCleanNonzero, allStrategiesFail,
              strat1Succeeds, strat2Succeeds, strat3Succeeds, strat4Succeeds]
          | none =>
            cases h with
            | err =>
              simp [ping_host, dnsHttpFallback, urlopenOk, pingCleanNonzero,
                allStrategiesFail, strat1Succeeds, strat2Succeeds, strat3Succeeds,
                strat4Succeeds, strat5Succeeds]
            | response status t =>
              by_cases hs : 200 ≤ status ∧ status < 300 <;>
                simp [ping_host, dnsHttpFallback, urlopenOk, hs, pingCleanNonzero,
                  allStrategiesFail, strat1Succeeds, strat2Succeeds, strat3Succeeds,
                  strat4Succeeds, strat5Succeeds]
    | none =>
      cases d with
      | some t =>
        simp [ping_host, dnsHttpFallback, pingCleanNonzero, allStrategiesFail,
          strat1Succeeds, strat2Succeeds, strat3Succeeds, strat4Succeeds]
      | none =>
        cases h with
        | err =>
          simp [ping_host, dnsHttpFallback, urlopenOk, pingCleanNonzero,
            allStrategiesFail, strat1Succeeds, strat2Succeeds, strat3Succeeds,
            strat4Succeeds, strat5Succeeds]
        | response status t =>
          by_cases hs : 200 ≤ status ∧ status < 300 <;>
            simp [ping_host, dnsHttpFallback, urlopenOk, hs, pingCleanNonzero,
              allStrategiesFail, strat1Succeeds, strat2Succeeds, strat3Succeeds,
              strat4Succeeds, strat5Succeeds]

/-- C2 (witness): the amended theorem instantiated on an environment in
which every strategy fails, yielding `(False, None)`. -/
theorem claim_C2_witness :
    ping_host ⟨none, none, none, none, .err⟩ = ⟨false, none⟩ :=
  (claim_C2_amended ⟨none, none, none, none, .err⟩).mpr (by decide)

/-- C4 (counterexample): with every earlier strategy failing, an HTTP GET
that completes with status 404 does NOT count as reachable: `urlopen`
raises `HTTPError` on 4xx/5xx, the bare `except` swallows it, and
`ping_host` returns `(False, None)` — refuting the claim that any
response regardless of status code yields success. -/
theorem claim_C4_counterexample :
    ping_host ⟨none, none, none, none, .response 404 5⟩ = ⟨false, none⟩ := by
  decide

/-- C4 (amended): with every earlier strategy failing, the HTTP fallback
returns success with the elapsed request time exactly when the GET
completes with a final status in 200-299; any other final status —
4xx/5xx as well as an unfollowed 3xx such as 300, 304 or 305 — raises
`HTTPError` inside `urlopen` and the probe reports failure. -/
theorem claim_C4_amended (status : Nat) (t : ℚ) :
    (200 ≤ status ∧ status < 300 →
      ping_host ⟨none, none, none, none, .response status t⟩ = ⟨true, some (pyRound1 t)⟩)
      ∧ (status < 200 ∨ 300 ≤ status →
      ping_host ⟨none, none, none, none, .response status t⟩ = ⟨false, none⟩) := by
  constructor
  · intro hok
    simp [ping_host, dnsHttpFallback, urlopenOk, hok]
  · intro hout
    have hnot : ¬(200 ≤ status ∧ status < 300) := by omega
    simp [ping_host, dnsHttpFallback, urlopenOk, hnot]

/-- C4 (witness): the amended theorem at status 200 (success, elapsed 7 ms
rounded), status 304 (an unfollowed redirect: failure), and status 404
(failure). -/
theorem claim_C4_witness :
    ping_host ⟨none, none, none, none, .response 200 7⟩ = ⟨true, some (pyRound1 7)⟩
      ∧ ping_host ⟨none, none, none, none, .response 304 2⟩ = ⟨false, none⟩
      ∧ ping_host ⟨none, none, none, none, .response 404 3⟩ = ⟨false, none⟩ :=
  ⟨(claim_C4_amended 200 7).1 (by norm_num), (claim_C4_amended 304 2).2 (by norm_num),
    (claim_C4_amended 404 3).2 (by norm_num)⟩

/-- C7 (counterexample): on exit code zero with output whose FIRST
`"time="` occurrence fails to parse while a later one parses, `ping_host`
returns the later value rather than downgrading to `(True, None)` —
refuting the claim that the first occurrence is the one parsed and that
its parse failure yields `latencyMs = None`. -/
theorem claim_C7_counterexample :
    ping_host ⟨some (0, str "time=abc ms\ntime=5 ms"), none, none, none, .err⟩
        = ⟨true, some 5⟩
      ∧ extractTimeLatency (str "time=abc ms") = none := by
  constructor
  · simp +decide [ping_host, method1Result, pingParseLoop, extractTimeLatency, pySplitChar,
      pySplitStr, pySplitStrGo, dropStart?, pyFloat?, stripEnds, natVal, str, timeEq,
      isSub, leadsWith]
  · decide

/-- C7 (amended): whenever the external ping utility exits with code zero,
`ping_host` reports success, and the latency is the value of the first
output line whose round-trip-time field parses (each line contributing via
`lineLatencyOf`); if no occurrence parses, the result downgrades to
`(True, None)` rather than a probe failure. -/
theorem claim_C7_amended (rc : Int) (output : PyStr) (tc : Option (Option ℚ))
    (rs d : Option ℚ) (h : HttpOutcome) (hrc : rc = 0) :
    ping_host ⟨some (rc, output), tc, rs, d, h⟩
      = ⟨true, (pySplitChar '\n' output).findSome? lineLatencyOf⟩ := by
  subst hrc
  show method1Result 0 output = _
  unfold method1Result
  rw [if_pos (show ((0 : Int) == 0) = true from rfl)]
  by_cases hin : isSub timeEq output = true
  · rw [if_pos hin, pingParseLoop_eq_findSome]
    cases hv : (pySplitChar '\n' output).findSome? lineLatencyOf <;> simp [hv]
  · rw [if_neg hin]
    have hnone : (pySplitChar '\n' output).findSome? lineLatencyOf = none := by
      rw [List.findSome?_eq_none_iff]
      intro l hl
      have hns : isSub timeEq l = false := by
        cases hq : isSub timeEq l with
        | false => rfl
        | true => exact absurd (isSub_of_mem_split '\n' timeEq output l hl hq) hin
      simp [lineLatencyOf, hns]
    rw [hnone]

/-- C7 (witness): the amended theorem evaluated on the concrete output
`"time=5 ms"` with exit code zero. -/
theorem claim_C7_witness :
    ping_host ⟨some (0, str "time=5 ms"), none, none, none, .err⟩ = ⟨true, some 5⟩ := by
  have h := claim_C7_amended 0 (str "time=5 ms") none none none HttpOutcome.err rfl
  rw [h]
  simp +decide [lineLatencyOf, extractTimeLatency, pySplitChar, pySplitStr, pySplitStrGo,
    dropStart?, pyFloat?, stripEnds, natVal, str, timeEq, isSub, leadsWith]

/-! ### Device table, discovery sweep and sample data (app.py lines 110-128, 264-322) -/

/-- Row of the `devices` table. `last_seen` and `created_at` hold the
`CURRENT_TIMESTAMP` of the writing statement, modelled as an abstract
clock value. -/
structure Device where
  name : PyStr
  ip_address : PyStr
  mac_address : Option PyStr
  device_type : PyStr
  status : PyStr
  latency : Option ℚ
  last_seen : Nat
  created_at : Nat
deriving DecidableEq

/-- Name generated for a newly discovered IP in `update_or_add_device`:
`"Gateway <suffix>"` when the address ends in `".1"` or `".254"`, else
`"Device <suffix>"`, with the suffix taken from the last dot-separated
component. -/
def newDeviceName (ip : PyStr) : PyStr :=
  if trailsWith (str ".1") ip || trailsWith (str ".254") ip then
    str "Gateway " ++ (pySplitChar '.' ip).getLastD []
  else
    str "Device " ++ (pySplitChar '.' ip).getLastD []

/-- Device type generated for a newly discovered IP, under the same
condition as `newDeviceName`. -/
def newDeviceType (ip : PyStr) : PyStr :=
  if trailsWith (str ".1") ip || trailsWith (str ".254") ip then str "Router"
  else str "Network Device"

/-- Embeds `NetworkMonitor.update_or_add_device`: if a row with this IP
exists, set its status to online and refresh latency and `last_seen`
(the SQL `UPDATE .. WHERE ip_address = ?` touches every matching row);
otherwise insert a new row with the generated name and type. -/
def update_or_add_device (db : List Device) (ip : PyStr) (latency : Option ℚ)
    (now : Nat) : List Device :=
  if db.any (fun dv => dv.ip_address == ip) then
    db.map (fun dv =>
      if dv.ip_address == ip then
        { dv with status := str "online", latency := latency, last_seen := now }
      else dv)
  else
    db ++ [⟨newDeviceName ip, ip, none, newDeviceType ip, str "online", latency, now, now⟩]

/-- Decimal rendering of a host suffix, as Python string interpolation
produces it. -/
def natToStr (n : Nat) : PyStr := (Nat.repr n).data

/-- The fixed suffix set scanned in each subnet by
`discover_network_devices`. -/
def common_ips : List Nat := [1, 254, 100, 101, 102]

/-- Embeds the per-subnet body of `discover_network_devices`: probe
`"<subnet>.<octet>"` for each suffix in `common_ips` with attempt count 1
and upsert every responder. The probe outcome for each target is the
environment function `ping`. -/
def sweep_subnet (ping : PyStr → ProbeResult) (db : List Device) (subnet : PyStr)
    (now : Nat) : List Device :=
  common_ips.foldl
    (fun acc o =>
      let target := subnet ++ str "." ++ natToStr o
      let r := ping target
      if r.success then update_or_add_device acc target r.latencyMs now else acc)
    db

/-- Embeds one `INSERT OR IGNORE` into `devices`: the insert is dropped
when a row with the same (unique) IP already exists. -/
def insertIgnore (db : List Device) (dv : Device) : List Device :=
  if db.any (fun x => x.ip_address == dv.ip_address) then db else db ++ [dv]

/-- First sample row inserted by `add_sample_data` (latency 15.2). -/
def sampleRow1 (now : Nat) : Device :=
  ⟨str "Main Router", str "192.168.1.1", some (str "00:11:22:33:44:55"), str "Router",
    str "online", some (152/10), now, now⟩

/-- Second sample row inserted by `add_sample_data` (latency 8.5). -/
def sampleRow2 (now : Nat) : Device :=
  ⟨str "Network Switch", str "192.168.1.2", some (str "00:11:22:33:44:56"), str "Switch",
    str "online", some (85/10), now, now⟩

/-- Third sample row inserted by `add_sample_data` (latency 25.1). -/
def sampleRow3 (now : Nat) : Device :=
  ⟨str "WiFi Access Point", str "192.168.1.3", some (str "00:11:22:33:44:57"),
    str "Access Point", str "warning", some (251/10), now, now⟩

/-- The three sample rows inserted by `add_sample_data`. -/
def sampleDeviceRows (now : Nat) : List Device :=
  [sampleRow1 now, sampleRow2 now, sampleRow3 now]

/-- Embeds `NetworkMonitor.add_sample_data`: insert-or-ignore each sample
row in order. -/
def add_sample_data (db : List Device) (now : Nat) : List Device :=
  (sampleDeviceRows now).foldl insertIgnore db

/-! ### Lemmas about the device operations -/

theorem insertIgnore_any_self (db : List Device) (dv : Device) :
    (insertIgnore db dv).any (fun x => x.ip_address == dv.ip_address) = true := by
  unfold insertIgnore
  split
  · next h => exact h
  · simp

theorem insertIgnore_any_mono (db : List Device) (dv : Device) (p : Device → Bool)
    (h : db.any p = true) : (insertIgnore db dv).any p = true := by
  unfold insertIgnore
  split
  · exact h
  · simp [List.any_append, h]

theorem insertIgnore_skip (db : List Device) (dv : Device)
    (h : db.any (fun x => x.ip_address == dv.ip_address) = true) :
    insertIgnore db dv = db := by
  unfold insertIgnore
  rw [if_pos h]

theorem update_or_add_not_found (db : List Device) (ip : PyStr) (latency : Option ℚ)
    (now : Nat) (h : db.any (fun dv => dv.ip_address == ip) = false) :
    update_or_add_device db ip latency now
      = db ++ [⟨newDeviceName ip, ip, none, newDeviceType ip, str "online", latency,
          now, now⟩] := by
  unfold update_or_add_device
  rw [h]
  simp

theorem map_update_id (db : List Device) (ip : PyStr) (latency : Option ℚ) (now : Nat)
    (h : ∀ dv ∈ db, (dv.ip_address == ip) = false) :
    db.map (fun dv =>
        if dv.ip_address == ip then
          { dv with status := str "online", latency := latency, last_seen := now }
        else dv)
      = db := by
  induction db with
  | nil => rfl
  | cons a as ih =>
    have ha := h a (List.mem_cons_self a as)
    simp only [List.map_cons, ha, Bool.false_eq_true, if_false]
    rw [ih (fun dv hdv => h dv (List.mem_cons_of_mem a hdv))]

/-- C5: upserting the same responsive IP twice (the first call creating
the row) leaves exactly one Device row for that IP; the second call sets
status online and refreshes latency and `last_seen` to the values of the second call;
values, while name, device type and `created_at` keep the values of the
first call. -/
theorem claim_C5 (db : List Device) (ip : PyStr) (l1 l2 : Option ℚ) (t1 t2 : Nat)
    (h : ∀ dv ∈ db, (dv.ip_address == ip) = false) :
    update_or_add_device (update_or_add_device db ip l1 t1) ip l2 t2
        = db ++ [⟨newDeviceName ip, ip, none, newDeviceType ip, str "online", l2, t2, t1⟩]
      ∧ (update_or_add_device (update_or_add_device db ip l1 t1) ip l2 t2).countP
          (fun dv => dv.ip_address == ip) = 1 := by
  have hany : db.any (fun dv => dv.ip_address == ip) = false := by
    rw [List.any_eq_false]
    intro x hx
    simp [h x hx]
  have h1 := update_or_add_not_found db ip l1 t1 hany
  have h2 : update_or_add_device (update_or_add_device db ip l1 t1) ip l2 t2
      = db ++ [⟨newDeviceName ip, ip, none, newDeviceType ip, str "online", l2, t2, t1⟩] := by
    rw [h1]
    have hany3 : (db ++ [(⟨newDeviceName ip, ip, none, newDeviceType ip, str "online",
        l1, t1, t1⟩ : Device)]).any (fun dv => dv.ip_address == ip) = true := by
      simp [List.any_append]
    unfold update_or_add_device
    rw [hany3]
    simp only [if_true, List.map_append, map_update_id db ip l2 t2 h, List.map_cons,
      List.map_nil]
    simp
  refine ⟨h2, ?_⟩
  rw [h2, List.countP_append]
  have hz : db.countP (fun dv => dv.ip_address == ip) = 0 := by
    rw [List.countP_eq_zero]
    intro a ha
    simp [h a ha]
  rw [hz]
  simp [List.countP_cons]

/-- C5 (witness): upserting `10.0.0.5` twice starting from an empty table
leaves exactly the one expected row. -/
theorem claim_C5_witness :
    update_or_add_device (update_or_add_device [] (str "10.0.0.5") (some 3) 1)
        (str "10.0.0.5") (some 4) 2
        = [⟨str "Device 5", str "10.0.0.5", none, str "Network Device", str "online",
            some 4, 2, 1⟩]
      ∧ (update_or_add_device (update_or_add_device [] (str "10.0.0.5") (some 3) 1)
          (str "10.0.0.5") (some 4) 2).countP
          (fun dv => dv.ip_address == str "10.0.0.5") = 1 := by
  have h := claim_C5 [] (str "10.0.0.5") (some 3) (some 4) 1 2 (by intro dv hdv; simp at hdv)
  have hn : newDeviceName (str "10.0.0.5") = str "Device 5" := by decide
  have ht : newDeviceType (str "10.0.0.5") = str "Network Device" := by decide
  rw [hn, ht] at h
  simpa using h

/-- C10: initialization seeds the three sample devices (`Main Router` at
192.168.1.1, `Network Switch` at 192.168.1.2, `WiFi Access Point` at
192.168.1.3) with insert-or-ignore: after running `add_sample_data` the
table holds a row for each of the three IPs, repeating the initialization
changes nothing (no duplicates), and from an empty table exactly the three
sample rows are present. -/
theorem claim_C10 (db : List Device) (now now2 : Nat) :
    ((add_sample_data db now).any (fun x => x.ip_address == str "192.168.1.1") = true
      ∧ (add_sample_data db now).any (fun x => x.ip_address == str "192.168.1.2") = true
      ∧ (add_sample_data db now).any (fun x => x.ip_address == str "192.168.1.3") = true)
      ∧ add_sample_data (add_sample_data db now) now2 = add_sample_data db now
      ∧ add_sample_data [] now = sampleDeviceRows now := by
  have key : ∀ (d : List Device) (t : Nat),
      add_sample_data d t
        = insertIgnore (insertIgnore (insertIgnore d (sampleRow1 t)) (sampleRow2 t))
            (sampleRow3 t) := fun d t => rfl
  have a1 : (add_sample_data db now).any (fun x => x.ip_address == str "192.168.1.1")
      = true := by
    rw [key]
    exact insertIgnore_any_mono _ _ _
      (insertIgnore_any_mono _ _ _ (insertIgnore_any_self db (sampleRow1 now)))
  have a2 : (add_sample_data db now).any (fun x => x.ip_address == str "192.168.1.2")
      = true := by
    rw [key]
    exact insertIgnore_any_mono _ _ _
      (insertIgnore_any_self (insertIgnore db (sampleRow1 now)) (sampleRow2 now))
  have a3 : (add_sample_data db now).any (fun x => x.ip_address == str "192.168.1.3")
      = true := by
    rw [key]
    exact insertIgnore_any_self
      (insertIgnore (insertIgnore db (sampleRow1 now)) (sampleRow2 now)) (sampleRow3 now)
  refine ⟨⟨a1, a2, a3⟩, ?_, ?_⟩
  · rw [key (add_sample_data db now) now2,
      insertIgnore_skip _ (sampleRow1 now2) (by exact a1),
      insertIgnore_skip _ (sampleRow2 now2) (by exact a2),
      insertIgnore_skip _ (sampleRow3 now2) (by exact a3)]
  · rw [key]
    have g1 : insertIgnore [] (sampleRow1 now) = [sampleRow1 now] := by
      unfold insertIgnore
      simp
    have g2 : insertIgnore [sampleRow1 now] (sampleRow2 now)
        = [sampleRow1 now, sampleRow2 now] := by
      unfold insertIgnore
      rw [if_neg (by simp +decide [sampleRow1, sampleRow2])]
      rfl
    have g3 : insertIgnore [sampleRow1 now, sampleRow2 now] (sampleRow3 now)
        = [sampleRow1 now, sampleRow2 now, sampleRow3 now] := by
      unfold insertIgnore
      rw [if_neg (by simp +decide [sampleRow1, sampleRow2, sampleRow3])]
      rfl
    rw [g1, g2, g3]
    rfl

/-! ### Lemmas for the discovery-sweep scenario -/

theorem leadsWith_self_append : ∀ (p t : PyStr), leadsWith p (p ++ t) = true
  | [], _ => rfl
  | c :: cs, t => by simp [leadsWith, leadsWith_self_append cs t]

theorem leadsWith_append_of_le : ∀ (p b r : PyStr), p.length ≤ b.length →
    leadsWith p (b ++ r) = leadsWith p b
  | [], _, _, _ => rfl
  | x :: xs, [], r, h => by simp at h
  | x :: xs, y :: ys, r, h => by
    show (x == y && leadsWith xs (ys ++ r)) = (x == y && leadsWith xs ys)
    rw [leadsWith_append_of_le xs ys r (by simpa using h)]

theorem trailsWith_append_of_le (pat sfx subnet : PyStr) (h : pat.length ≤ sfx.length) :
    trailsWith pat (subnet ++ sfx) = trailsWith pat sfx := by
  unfold trailsWith
  rw [List.reverse_append, leadsWith_append_of_le _ _ _ (by simpa using h)]

theorem pySplitChar_append_sep (sep : Char) : ∀ a b : PyStr,
    pySplitChar sep (a ++ sep :: b) = pySplitChar sep a ++ pySplitChar sep b
  | [], b => by simp [pySplitChar]
  | c :: cs, b => by
    by_cases hc : c = sep
    · show pySplitChar sep (c :: (cs ++ sep :: b)) = pySplitChar sep (c :: cs) ++ _
      simp only [pySplitChar, if_pos hc, pySplitChar_append_sep sep cs b, List.cons_append]
    · cases hsplit : pySplitChar sep cs with
      | nil => exact absurd hsplit (pySplitChar_ne_nil sep cs)
      | cons p ps =>
        have ih := pySplitChar_append_sep sep cs b
        rw [hsplit] at ih
        show pySplitChar sep (c :: (cs ++ sep :: b)) = pySplitChar sep (c :: cs) ++ _
        simp only [pySplitChar, if_neg hc, ih, hsplit, List.cons_append]

theorem append_beq_false (a b c : PyStr) (h : b ≠ c) : ((a ++ b) == (a ++ c)) = false := by
  rw [beq_eq_false_iff_ne]
  intro hx
  exact h (List.append_cancel_left hx)

theorem leadsWith_cons_false (p : Char) (ps : PyStr) (c : Char) (cs : PyStr)
    (h : (p == c) = false) : leadsWith (p :: ps) (c :: cs) = false := by
  simp [leadsWith, h]

theorem newDevice_gateway1 (subnet : PyStr) :
    newDeviceName (subnet ++ str ".1") = str "Gateway 1"
      ∧ newDeviceType (subnet ++ str ".1") = str "Router" := by
  have hcond : (trailsWith (str ".1") (subnet ++ str ".1")
      || trailsWith (str ".254") (subnet ++ str ".1")) = true := by
    rw [trailsWith_append_of_le (str ".1") (str ".1") subnet (by decide),
      show trailsWith (str ".1") (str ".1") = true from by decide]
    simp
  have hlast : (pySplitChar '.' (subnet ++ str ".1")).getLastD [] = str "1" := by
    have hform : subnet ++ str ".1" = subnet ++ '.' :: str "1" := rfl
    rw [hform, pySplitChar_append_sep,
      show pySplitChar '.' (str "1") = [str "1"] from by decide, List.getLastD_concat]
  constructor
  · unfold newDeviceName
    rw [hcond]
    simp only [if_true, hlast]
    decide
  · unfold newDeviceType
    rw [hcond]
    simp

theorem newDevice_gateway254 (subnet : PyStr) :
    newDeviceName (subnet ++ str ".254") = str "Gateway 254"
      ∧ newDeviceType (subnet ++ str ".254") = str "Router" := by
  have hcond : (trailsWith (str ".1") (subnet ++ str ".254")
      || trailsWith (str ".254") (subnet ++ str ".254")) = true := by
    rw [trailsWith_append_of_le (str ".1") (str ".254") subnet (by decide),
      trailsWith_append_of_le (str ".254") (str ".254") subnet (by decide)]
    decide
  have hlast : (pySplitChar '.' (subnet ++ str ".254")).getLastD [] = str "254" := by
    have hform : subnet ++ str ".254" = subnet ++ '.' :: str "254" := rfl
    rw [hform, pySplitChar_append_sep,
      show pySplitChar '.' (str "254") = [str "254"] from by decide, List.getLastD_concat]
  constructor
  · unfold newDeviceName
    rw [hcond]
    simp only [if_true, hlast]
    decide
  · unfold newDeviceType
    rw [hcond]
    simp

theorem newDevice_plain (subnet sfx : PyStr) (tail : PyStr)
    (hform : sfx = '.' :: tail)
    (hsplit : pySplitChar '.' tail = [tail])
    (hc1 : trailsWith (str ".1") sfx = false)
    (hc254 : trailsWith (str ".254") sfx = false)
    (hlen1 : (str ".1").length ≤ sfx.length)
    (hlen254 : (str ".254").length ≤ sfx.length) :
    newDeviceName (subnet ++ sfx) = str "Device " ++ tail
      ∧ newDeviceType (subnet ++ sfx) = str "Network Device" := by
  have hcond : (trailsWith (str ".1") (subnet ++ sfx)
      || trailsWith (str ".254") (subnet ++ sfx)) = false := by
    rw [trailsWith_append_of_le _ _ _ hlen1, trailsWith_append_of_le _ _ _ hlen254,
      hc1, hc254]
    rfl
  have hlast : (pySplitChar '.' (subnet ++ sfx)).getLastD [] = tail := by
    rw [hform, pySplitChar_append_sep, hsplit, List.getLastD_concat]
  constructor
  · unfold newDeviceName
    rw [hcond]
    simp only [Bool.false_eq_true, if_false, hlast]
  · unfold newDeviceType
    rw [hcond]
    simp

/-- C6: in a sweep of a `/24` subnet where exactly the suffix-1 and
suffix-254 targets respond, exactly two new Devices are appended, named
`Gateway 1` and `Gateway 254`, both of type `Router` and status `online`,
carrying the measured latencies and nothing else; moreover, a newly
discovered IP with any other scanned suffix would be named
`Device <suffix>` with type `Network Device`. -/
theorem claim_C6 (ping : PyStr → ProbeResult) (db : List Device) (subnet : PyStr)
    (now : Nat)
    (h1 : (ping (subnet ++ str ".1")).success = true)
    (h254 : (ping (subnet ++ str ".254")).success = true)
    (h100 : (ping (subnet ++ str ".100")).success = false)
    (h101 : (ping (subnet ++ str ".101")).success = false)
    (h102 : (ping (subnet ++ str ".102")).success = false)
    (hdb1 : ∀ dv ∈ db, (dv.ip_address == subnet ++ str ".1") = false)
    (hdb254 : ∀ dv ∈ db, (dv.ip_address == subnet ++ str ".254") = false) :
    sweep_subnet ping db subnet now
        = db ++ [⟨str "Gateway 1", subnet ++ str ".1", none, str "Router", str "online",
            (ping (subnet ++ str ".1")).latencyMs, now, now⟩,
          ⟨str "Gateway 254", subnet ++ str ".254", none, str "Router", str "online",
            (ping (subnet ++ str ".254")).latencyMs, now, now⟩]
      ∧ newDeviceName (subnet ++ str ".100") = str "Device 100"
      ∧ newDeviceType (subnet ++ str ".100") = str "Network Device"
      ∧ newDeviceName (subnet ++ str ".101") = str "Device 101"
      ∧ newDeviceType (subnet ++ str ".101") = str "Network Device"
      ∧ newDeviceName (subnet ++ str ".102") = str "Device 102"
      ∧ newDeviceType (subnet ++ str ".102") = str "Network Device" := by
  have p100 := newDevice_plain subnet (str ".100") (str "100") rfl (by decide)
    (by decide) (by decide) (by decide) (by decide)
  have p101 := newDevice_plain subnet (str ".101") (str "101") rfl (by decide)
    (by decide) (by decide) (by decide) (by decide)
  have p102 := newDevice_plain subnet (str ".102") (str "102") rfl (by decide)
    (by decide) (by decide) (by decide) (by decide)
  have hT1 : (subnet ++ str ".") ++ natToStr 1 = subnet ++ str ".1" := by
    rw [List.append_assoc]
    exact congrArg (fun t => subnet ++ t) (by decide)
  have hT254 : (subnet ++ str ".") ++ natToStr 254 = subnet ++ str ".254" := by
    rw [List.append_assoc]
    exact congrArg (fun t => subnet ++ t) (by decide)
  have hT100 : (subnet ++ str ".") ++ natToStr 100 = subnet ++ str ".100" := by
    rw [List.append_assoc]
    exact congrArg (fun t => subnet ++ t) (by decide)
  have hT101 : (subnet ++ str ".") ++ natToStr 101 = subnet ++ str ".101" := by
    rw [List.append_assoc]
    exact congrArg (fun t => subnet ++ t) (by decide)
  have hT102 : (subnet ++ str ".") ++ natToStr 102 = subnet ++ str ".102" := by
    rw [List.append_assoc]
    exact congrArg (fun t => subnet ++ t) (by decide)
  refine ⟨?_, p100.1.trans (by decide), p100.2, p101.1.trans (by decide), p101.2,
    p102.1.trans (by decide), p102.2⟩
  show List.foldl _ db common_ips = _
  simp only [common_ips, List.foldl_cons, List.foldl_nil, hT1, hT254, hT100, hT101, hT102,
    h1, h254, h100, h101, h102, if_true, Bool.false_eq_true, if_false]
  have hanyT1 : db.any (fun dv => dv.ip_address == subnet ++ str ".1") = false := by
    rw [List.any_eq_false]
    intro x hx
    simp [hdb1 x hx]
  rw [update_or_add_not_found db _ _ _ hanyT1]
  have hanyT254 : (db ++ [(⟨newDeviceName (subnet ++ str ".1"), subnet ++ str ".1", none,
      newDeviceType (subnet ++ str ".1"), str "online",
      (ping (subnet ++ str ".1")).latencyMs, now, now⟩ : Device)]).any
      (fun dv => dv.ip_address == subnet ++ str ".254") = false := by
    rw [List.any_eq_false]
    intro x hx
    rcases List.mem_append.mp hx with hm | hm
    · simp [hdb254 x hm]
    · simp only [List.mem_singleton] at hm
      subst hm
      simp [append_beq_false subnet (str ".1") (str ".254") (by decide)]
  rw [update_or_add_not_found _ _ _ _ hanyT254, (newDevice_gateway1 subnet).1,
    (newDevice_gateway1 subnet).2, (newDevice_gateway254 subnet).1,
    (newDevice_gateway254 subnet).2, List.append_assoc]
  rfl

/-- C6 (witness): a concrete sweep of `10.0.0` over an empty table where
only `10.0.0.1` (latency 12) and `10.0.0.254` (no latency) respond. -/
theorem claim_C6_witness :
    sweep_subnet
        (fun s => if s == str "10.0.0.1" then ⟨true, some 12⟩
          else if s == str "10.0.0.254" then ⟨true, none⟩ else ⟨false, none⟩)
        [] (str "10.0.0") 9
      = [⟨str "Gateway 1", str "10.0.0.1", none, str "Router", str "online", some 12, 9, 9⟩,
         ⟨str "Gateway 254", str "10.0.0.254", none, str "Router", str "online",
           none, 9, 9⟩] := by
  have h := (claim_C6
    (fun s => if s == str "10.0.0.1" then ⟨true, some 12⟩
      else if s == str "10.0.0.254" then ⟨true, none⟩ else ⟨false, none⟩)
    [] (str "10.0.0") 9
    (by decide) (by decide) (by decide) (by decide) (by decide)
    (by intro dv hdv; simp at hdv) (by intro dv hdv; simp at hdv)).1
  rw [show str "10.0.0" ++ str ".1" = str "10.0.0.1" from by decide,
    show str "10.0.0" ++ str ".254" = str "10.0.0.254" from by decide] at h
  simpa using h

/-! ### Tiered host-metrics collection (app.py lines 130-180 and 566-654,
backup_monitor.py lines 62-92) -/

/-- A network-interface entry `{name, ip, netmask}`. -/
structure NetIf where
  name : String
  ip : String
  netmask : String
deriving DecidableEq

/-- The dictionary returned by `NetworkMonitor.get_system_stats` (the
timestamp field is omitted: no claim concerns it). -/
structure SysStats where
  cpu_usage : ℚ
  memory_usage : ℚ
  disk_usage : ℚ
  uptime_hours : ℚ
  interfaces : List NetIf
deriving DecidableEq

/-- Raw psutil readings consumed by `get_system_stats`: CPU percent,
virtual-memory percent, root-disk percent, seconds since boot, and the
non-loopback IPv4 interfaces. -/
structure PsutilReadings where
  cpu_percent : ℚ
  memory_percent : ℚ
  disk_percent : ℚ
  uptime_seconds : ℚ
  interfaces : List NetIf

/-- Embeds `NetworkMonitor.get_system_stats`: round the live readings, or
— when anything in the body raises (`env = none`) — fall to the
`except` branch that returns an all-zero snapshot. The function is total:
it never raises. -/
def get_system_stats (env : Option PsutilReadings) : SysStats :=
  match env with
  | some r =>
    ⟨pyRound1 r.cpu_percent, pyRound1 r.memory_percent, pyRound1 r.disk_percent,
      pyRound1 (r.uptime_seconds / 3600), r.interfaces⟩
  | none => ⟨0, 0, 0, 0, []⟩

/-- Fields of the result of `BackupMonitor.run_monitoring_cycle` that the
backup tier of `get_host_stats` serves. -/
structure BackupStats where
  cpu_usage : ℚ
  memory_percent : ℚ
  disk_percent : ℚ
  uptime_hours : ℚ
  network_interfaces : List NetIf

/-- Environment of the failsafe tier: the parsed `/proc/meminfo` pairs
(`none` when the file is absent, the platform is not Linux, or reading or
parsing raises — the bare `except` then keeps the 50.0 default) and the
`os.statvfs` outcome as `(total, free)` bytes. -/
structure FailsafeEnv where
  meminfo : Option (List (String × Int))
  statvfs : Option (Int × Int)

/-- Python `dict` lookup with default over the parsed meminfo pairs (a
later duplicate key overwrites an earlier one, hence the reverse). -/
def meminfoGet (m : List (String × Int)) (k : String) (d : Int) : Int :=
  match m.reverse.find? (fun kv => kv.1 == k) with
  | some kv => kv.2
  | none => d

/-- Embeds the failsafe-tier memory reading of `get_host_stats`:
`(MemTotal - MemAvailable) / MemTotal * 100` rounded to one decimal, with
`MemFree` as fallback for `MemAvailable`, computed only when
`MemTotal > 0`; otherwise the 50.0 default stands. -/
def failsafe_memory_usage (meminfo : Option (List (String × Int))) : ℚ :=
  match meminfo with
  | none => 50
  | some m =>
    let total := meminfoGet m "MemTotal" 0
    let available := meminfoGet m "MemAvailable" (meminfoGet m "MemFree" 0)
    if 0 < total then pyRound1 (((total : ℚ) - (available : ℚ)) / (total : ℚ) * 100)
    else 50

/-- Embeds the failsafe-tier disk reading of `get_host_stats`:
`(total - free) / total * 100` from `os.statvfs` rounded to one decimal
when `total > 0`; the 50.0 default stands otherwise (also when `statvfs`
raises). -/
def failsafe_disk_usage (statvfs : Option (Int × Int)) : ℚ :=
  match statvfs with
  | none => 50
  | some tf =>
    if 0 < tf.1 then pyRound1 (((tf.1 : ℚ) - (tf.2 : ℚ)) / (tf.1 : ℚ) * 100) else 50

/-- The JSON object served by `/api/host/stats`. -/
structure HostSnapshot where
  cpuUsage : ℚ
  memoryUsage : ℚ
  diskUsage : ℚ
  uptime : ℚ
  networkInterfaces : List NetIf
  source : String
deriving DecidableEq

/-- Embeds the route `get_host_stats` (`/api/host/stats`): serve the
primary collector when its tier body does not raise, else the backup
collector, else the failsafe tier (fixed CPU 25.0, meminfo- and
statvfs-derived memory/disk with 50.0 defaults, uptime 1.0, one synthetic
interface), else the all-zero minimal snapshot. A `none` tier argument
models the body of that tier raising. The function is total: it never raises. -/
def get_host_stats (primary : Option SysStats) (backup : Option BackupStats)
    (failsafe : Option FailsafeEnv) : HostSnapshot :=
  match primary with
  | some s => ⟨s.cpu_usage, s.memory_usage, s.disk_usage, s.uptime_hours,
      s.interfaces, "primary"⟩
  | none =>
    match backup with
    | some b => ⟨b.cpu_usage, b.memory_percent, b.disk_percent, b.uptime_hours,
        b.network_interfaces, "backup"⟩
    | none =>
      match failsafe with
      | some e => ⟨25, failsafe_memory_usage e.meminfo, failsafe_disk_usage e.statvfs, 1,
          [⟨"eth0", "127.0.0.1", "255.0.0.0"⟩], "failsafe"⟩
      | none => ⟨0, 0, 0, 0, [], "minimal"⟩

/-- Spec-side definition for comparison: the first tier, in the fixed
order primary, backup, failsafe, minimal, whose collection did not raise. -/
def firstSuccessfulTier (p b f : Bool) : String :=
  if p then "primary" else if b then "backup" else if f then "failsafe" else "minimal"

/-- Embeds `BackupMonitor.get_cpu_usage_basic` on its Linux `/proc/stat`
path: `cpu_times` is the list of integers parsed from the tail of the
first line. An `IndexError` (fewer than four fields) or `ZeroDivisionError`
(zero total) is caught by the handler, which returns 0; otherwise the
usage `100 * (1 - idle/total)` is clamped with `max(0, min(100, ..))`. -/
def get_cpu_usage_basic (cpu_times : List Int) : ℚ :=
  match cpu_times.get? 3 with
  | none => 0
  | some idle =>
    let total : Int := cpu_times.sum
    if total = 0 then 0
    else max 0 (min 100 (100 * (1 - (idle : ℚ) / (total : ℚ))))

/-- C1: `get_host_stats` never raises (it is a total function of the tier
outcomes), and the `source` field of the snapshot it returns names the
first tier in the order primary, backup, failsafe, minimal whose
collection did not raise; a later tier is consulted only when every
earlier tier raised. -/
theorem claim_C1 (primary : Option SysStats) (backup : Option BackupStats)
    (failsafe : Option FailsafeEnv) :
    (get_host_stats primary backup failsafe).source
      = firstSuccessfulTier primary.isSome backup.isSome failsafe.isSome := by
  cases primary <;> cases backup <;> cases failsafe <;>
    simp [get_host_stats, firstSuccessfulTier]

/-- C9: `get_system_stats` never raises — on any internal error it returns
the all-zero snapshot with an empty interface list — and therefore the
primary tier of `get_host_stats` always serves, tagged `source=primary`:
a failure inside primary metric collection never reaches the backup
tier. -/
theorem claim_C9 (env : Option PsutilReadings) (backup : Option BackupStats)
    (failsafe : Option FailsafeEnv) :
    get_system_stats none = ⟨0, 0, 0, 0, []⟩
      ∧ (get_host_stats (some (get_system_stats env)) backup failsafe).source
          = "primary" := by
  exact ⟨rfl, rfl⟩

/-- C3 (counterexample): a possible `/proc/meminfo` content (`MemTotal`
100 kB, `MemAvailable` 300 kB) drives the failsafe tier to serve a
snapshot whose `memoryUsage` is -200.0 — outside `[0, 100]` — refuting
the claim that every percentage field of every produced snapshot is
clamped to `[0, 100]`. -/
theorem claim_C3_counterexample :
    (get_host_stats none none
        (some ⟨some [("MemTotal", 100), ("MemAvailable", 300)], none⟩)).memoryUsage
      = -200
      ∧ ¬(0 ≤ (get_host_stats none none
          (some ⟨some [("MemTotal", 100), ("MemAvailable", 300)], none⟩)).memoryUsage) := by
  have hval : (get_host_stats none none
      (some ⟨some [("MemTotal", 100), ("MemAvailable", 300)], none⟩)).memoryUsage
      = -200 := by
    show failsafe_memory_usage (some [("MemTotal", 100), ("MemAvailable", 300)]) = -200
    have h1 : failsafe_memory_usage (some [("MemTotal", 100), ("MemAvailable", 300)])
        = pyRound1 ((((100 : Int) : ℚ) - ((300 : Int) : ℚ)) / ((100 : Int) : ℚ) * 100) := by
      simp +decide [failsafe_memory_usage, meminfoGet, List.find?]
    rw [h1, show (((100 : Int) : ℚ) - ((300 : Int) : ℚ)) / ((100 : Int) : ℚ) * 100 = -200
      from by norm_num]
    norm_num [pyRound1, pyRoundHalfEven]
  refine ⟨hval, ?_⟩
  rw [hval]
  norm_num

/-- C3 (amended): the percentage fields of the snapshots are generally
used as computed, without clamping; the one clamp in the code is the
backup CPU reader on the Linux path, whose result always lies in
`[0, 100]` (the zeros of the minimal tier are trivially in range). -/
theorem claim_C3_amended (cpu_times : List Int) :
    0 ≤ get_cpu_usage_basic cpu_times ∧ get_cpu_usage_basic cpu_times ≤ 100 := by
  unfold get_cpu_usage_basic
  cases cpu_times.get? 3 with
  | none => norm_num
  | some idle =>
    simp only
    split
    · norm_num
    · constructor
      · exact le_max_left 0 _
      · exact max_le (by norm_num) (min_le_left 100 _)

/-! ### Heartbeat endpoint (app.py lines 484-502) -/

/-- Row of the `raspberry_pi_nodes` table. -/
structure PiNode where
  id : Nat
  name : String
  ip_address : String
  location : Option String
  is_online : Bool
  last_heartbeat : Option Nat
  system_stats : Option String
  created_at : Nat
deriving DecidableEq

/-- Embeds the route `raspberry_pi_heartbeat`
(`/api/raspberry-pi/<node_id>/heartbeat`): run
`UPDATE raspberry_pi_nodes SET is_online = 1, last_heartbeat =
CURRENT_TIMESTAMP, system_stats = ? WHERE id = ?` — which touches only
rows whose id matches — and respond `success` unconditionally. `stats` is
the serialized `systemStats` payload, `now` the statement timestamp. The
returned Bool is the `success` field of the response. -/
def raspberry_pi_heartbeat (db : List PiNode) (node_id : Nat) (stats : String)
    (now : Nat) : List PiNode × Bool :=
  (db.map fun n =>
    if n.id == node_id then
      { n with is_online := true, last_heartbeat := some now, system_stats := some stats }
    else n, true)

/-- C8 (counterexample): a heartbeat for a node id with no registered row
is answered with success but stores nothing — the table is unchanged, so
no heartbeat record is kept and no node is marked online — refuting the
claim that the heartbeat is accepted AND stored for unregistered
nodes. -/
theorem claim_C8_counterexample :
    raspberry_pi_heartbeat [] 1 "s" 5 = ([], true) := by
  rfl

/-- C8 (amended): the heartbeat endpoint enforces no prior-registration
precondition and always responds with success; it updates (marks online,
stamps the heartbeat time, stores the stats of) exactly the rows whose id
matches, so a heartbeat for an unregistered node id leaves the table
unchanged and surfaces no error. -/
theorem claim_C8_amended (db : List PiNode) (node_id : Nat) (stats : String) (now : Nat) :
    (raspberry_pi_heartbeat db node_id stats now).2 = true
      ∧ ((∀ n ∈ db, n.id ≠ node_id) →
          (raspberry_pi_heartbeat db node_id stats now).1 = db) := by
  refine ⟨rfl, fun h => ?_⟩
  show db.map _ = db
  induction db with
  | nil => rfl
  | cons a as ih =>
    have ha : (a.id == node_id) = false := by
      simpa using h a (List.mem_cons_self a as)
    simp only [List.map_cons, ha, Bool.false_eq_true, if_false]
    rw [ih (fun n hn => h n (List.mem_cons_of_mem a hn))]

/-- C8 (witness): the amended theorem at a concrete one-row table and a
non-matching node id. -/
theorem claim_C8_witness :
    (raspberry_pi_heartbeat [⟨7, "pi-a", "10.0.0.50", none, false, none, none, 0⟩]
        9 "s" 3).2 = true
      ∧ (raspberry_pi_heartbeat [⟨7, "pi-a", "10.0.0.50", none, false, none, none, 0⟩]
          9 "s" 3).1
        = [⟨7, "pi-a", "10.0.0.50", none, false, none, none, 0⟩] := by
  have h := claim_C8_amended [⟨7, "pi-a", "10.0.0.50", none, false, none, none, 0⟩] 9 "s" 3
  exact ⟨h.1, h.2 (by intro n hn; simp at hn; simp [hn])⟩

end NetMonitor
